import Mathlib

/-!
Shallow embedding of `wopr-plugin-provider-opencode` (`src/index.ts`).

The repository is a thin adapter between a host "model provider" contract and
an external backend SDK.  The interesting logic is the async generator
`OpencodeClient.query` together with the provider-level `validateCredentials`
and the client-level `healthCheck`.  The backend SDK is external: we model one
invocation's worth of backend behaviour as a record of the three call
outcomes the adapter can observe (`session.create`, `session.prompt`,
`global.health`), each an `Except` (thrown error) of an `Option` (the
response's optional `data` field).  `query` becomes a pure function from the
client's cached session id, the backend behaviour and the request options to
an outcome record: the ordered list of yielded events, the client's session id
after the call, the prompt request sent to the backend (if any), and the
error the generator was terminated with (if any).
-/

/-- A tool definition carried by an A2A server configuration.
Modelled from the spec: `./types.js` is not part of the sources; the spec
describes `a2aServers` as a mapping from server name to
`\x7bname, version, tools: ordered sequence of tool definitions\x7d`, and the
translator reads only each tool's `name`. -/
structure ToolDef where
  name : String
  deriving Repr, DecidableEq

/-- Modelled from the spec: the `A2AServerConfig` shape from the missing
`./types.js`, of which `query` reads only the `tools` list. -/
structure A2AServerConfig where
  name : String
  version : String
  tools : List ToolDef
  deriving Repr, DecidableEq

/-- `ModelQueryOptions` from `src/index.ts`.  A TypeScript `Record` keeps its
insertion order under `Object.entries`, so `a2aServers` is an ordered
association list.  The numeric sampling fields (`temperature`, `maxTokens`,
`topP`) and the opaque `providerOptions` are omitted: `query` never reads
them. -/
structure ModelQueryOptions where
  prompt : String
  systemPrompt : Option String := none
  resume : Option String := none
  model : Option String := none
  images : Option (List String) := none
  tools : Option (List String) := none
  a2aServers : Option (List (String × A2AServerConfig)) := none
  allowedTools : Option (List String) := none
  deriving Repr

/-- The backend health payload `\x7bhealthy: boolean\x7d`. -/
structure Health where
  healthy : Bool
  deriving Repr, DecidableEq

/-- A backend response part `\x7btype, text?, name?\x7d`. -/
structure ResponsePart where
  type : String
  text : Option String := none
  name : Option String := none
  deriving Repr, DecidableEq

/-- The `data` field of a backend prompt response; `parts` is defended with
`|| []` in the source, so it is optional here. -/
structure PromptData where
  parts : Option (List ResponsePart) := none
  deriving Repr, DecidableEq

/-- One invocation's worth of observable backend behaviour:
`Except.error e` models the SDK call throwing `e` (or the SDK failing to
load), `Except.ok none` a resolved response whose optional `data` field is
absent, `Except.ok (some d)` a resolved response carrying `d`. -/
structure Backend where
  createSession : Except String (Option String)
  promptResponse : Except String (Option PromptData)
  health : Except String (Option Health)

/-- A content item inside an emitted `assistant` event. -/
inductive ContentItem where
  | text (text : Option String)
  | tool_use (name : Option String)
  deriving Repr, DecidableEq

/-- The events `query` yields. -/
inductive Event where
  | system (subtype : String) (session_id : String)
  | assistant (content : List ContentItem)
  | result (subtype : String) (total_cost_usd : Nat)
  deriving Repr, DecidableEq

/-- A part of the prompt request body sent to the backend. -/
structure PromptPart where
  type : String
  text : Option String := none
  deriving Repr, DecidableEq

/-- The prompt request `query` sends via `client.session.prompt`. -/
structure PromptRequest where
  path_id : String
  providerID : String
  modelID : String
  parts : List PromptPart
  enabledTools : Option (List String) := none
  deriving Repr, DecidableEq

/-- JavaScript `s.startsWith(pre)`, as a character-list prefix test (the
prefixes used by the source are ASCII, where this coincides with the UTF-16
view). -/
def jsStartsWith (s pre : String) : Bool :=
  pre.data.isPrefixOf s.data

/-- `resolveProviderID` from `src/index.ts` lines 206-210. -/
def resolveProviderID (modelID : String) : String :=
  if jsStartsWith modelID "gpt-" || jsStartsWith modelID "o1" || jsStartsWith modelID "o3" then
    "openai"
  else if jsStartsWith modelID "gemini-" then "google"
  else "anthropic"

/-- `opencodeProvider.defaultModel`. -/
def defaultModel : String := "claude-3-5-sonnet"

/-- `opencodeProvider.supportedModels`. -/
def supportedModels : List String :=
  ["claude-3-5-sonnet", "claude-3-5-haiku", "gpt-4o", "gpt-4o-mini"]

/-- One line of the image list: `opts.images.map((url, i) => ...)` renders
index `i` as `i + 1`. -/
def imageLine (i : Nat) (url : String) : String :=
  "[Image " ++ toString (i + 1) ++ "]: " ++ url

/-- The prompt text construction of `src/index.ts` lines 198-202. -/
def buildPromptText (prompt : String) (images : Option (List String)) : String :=
  match images with
  | some imgs =>
    if 0 < imgs.length then
      let imageList := String.intercalate "\n" (imgs.enum.map (fun p => imageLine p.1 p.2))
      "[User has shared " ++ toString imgs.length ++ " image(s)]\n" ++ imageList ++ "\n\n" ++
        prompt
    else prompt
  | none => prompt

/-- The namespaced A2A tool identifier `mcp__\x7bserverName\x7d__\x7btoolName\x7d`. -/
def a2aToolName (serverName toolName : String) : String :=
  "mcp__" ++ serverName ++ "__" ++ toolName

/-- The nested loop of `src/index.ts` lines 225-229: servers in entry order,
then their tools in order. -/
def a2aToolNames (servers : List (String × A2AServerConfig)) : List String :=
  servers.flatMap (fun s => s.2.tools.map (fun t => a2aToolName s.1 t.name))

/-- The two conditional assignments to `promptOptions.enabledTools`
(`src/index.ts` lines 223-238).  Note that a non-empty `a2aServers` map sets
the field even when it contributes zero tool names, and that
`promptOptions.enabledTools || []` recovers `[]` from both `undefined` and an
already-assigned empty array. -/
def computeEnabledTools (a2aServers : Option (List (String × A2AServerConfig)))
    (allowedTools : Option (List String)) : Option (List String) :=
  let afterA2A : Option (List String) :=
    match a2aServers with
    | some servers => if 0 < servers.length then some (a2aToolNames servers) else none
    | none => none
  match allowedTools with
  | some ts => if 0 < ts.length then some (afterA2A.getD [] ++ ts) else afterA2A
  | none => afterA2A

/-- Translation of one backend response part into an emitted event
(`src/index.ts` lines 248-260); parts of any other type produce nothing. -/
def translatePart (p : ResponsePart) : Option Event :=
  if p.type = "text" then some (Event.assistant [ContentItem.text p.text])
  else if p.type = "tool_use" ∨ p.type = "tool_call" then
    some (Event.assistant [ContentItem.tool_use p.name])
  else none

/-- The prompt request body assembled by `query` before calling
`client.session.prompt` (`src/index.ts` lines 204-243). -/
def buildPromptRequest (sid : String) (opts : ModelQueryOptions) : PromptRequest :=
  { path_id := sid
    providerID := resolveProviderID (opts.model.getD defaultModel)
    modelID := opts.model.getD defaultModel
    parts := [{ type := "text", text := some (buildPromptText opts.prompt opts.images) }]
    enabledTools := computeEnabledTools opts.a2aServers opts.allowedTools }

/-- The observable outcome of one `query` invocation: the events yielded in
order, the client's cached session id afterwards, the prompt request sent to
the backend (if the invocation got that far), and the error the generator was
terminated with (if any). -/
structure QueryOutcome where
  events : List Event
  sessionId : Option String
  sentPrompt : Option PromptRequest
  error : Option String
  deriving Repr, DecidableEq

/-- The catch-all wrapper of `src/index.ts` line 266. -/
def wrapError (e : String) : String := "OpenCode query failed: " ++ e

/-- The message thrown at `src/index.ts` line 193. -/
def sessionCreationErrorMsg : String := "Failed to create OpenCode session"

/-- The tail of `query` once a session id is at hand (`src/index.ts` lines
196-263): the unconditional `init` yield, the prompt call, the part
translation loop and the terminal `result` yield, or error wrapping. -/
def queryWithSession (sid : String) (bk : Backend) (opts : ModelQueryOptions) : QueryOutcome :=
  let initEvent := Event.system "init" sid
  let req := buildPromptRequest sid opts
  match bk.promptResponse with
  | Except.error e =>
    { events := [initEvent], sessionId := some sid, sentPrompt := some req,
      error := some (wrapError e) }
  | Except.ok none =>
    { events := [initEvent], sessionId := some sid, sentPrompt := some req, error := none }
  | Except.ok (some data) =>
    { events :=
        initEvent ::
          ((data.parts.getD []).filterMap translatePart ++ [Event.result "success" 0]),
      sessionId := some sid, sentPrompt := some req, error := none }

/-- `OpencodeClient.query` (`src/index.ts` lines 180-268), as a function of
the client's cached session id and the backend behaviour.  When no session is
cached, `session.create` is called: a thrown error or an id-less payload
terminates the generator with a wrapped error before any event is yielded. -/
def query (sessionId : Option String) (bk : Backend) (opts : ModelQueryOptions) : QueryOutcome :=
  match sessionId with
  | some sid => queryWithSession sid bk opts
  | none =>
    match bk.createSession with
    | Except.error e =>
      { events := [], sessionId := none, sentPrompt := none, error := some (wrapError e) }
    | Except.ok none =>
      { events := [], sessionId := none, sentPrompt := none,
        error := some (wrapError sessionCreationErrorMsg) }
    | Except.ok (some sid) => queryWithSession sid bk opts

/-- `opencodeProvider.validateCredentials` (`src/index.ts` lines 133-145):
`health.data?.healthy === true` on a resolved call, `true` on a thrown
error. -/
def validateCredentials (bk : Backend) : Bool :=
  match bk.health with
  | Except.error _ => true
  | Except.ok none => false
  | Except.ok (some h) => h.healthy

/-- `OpencodeClient.healthCheck` (`src/index.ts` lines 274-283): same probe,
but `false` on a thrown error. -/
def healthCheck (bk : Backend) : Bool :=
  match bk.health with
  | Except.error _ => false
  | Except.ok none => false
  | Except.ok (some h) => h.healthy

/-- Recognises the `system`/`init` event. -/
def isInitEvent : Event → Bool
  | Event.system "init" _ => true
  | _ => false

/-- Recognises an `assistant` event. -/
def isAssistantEvent : Event → Bool
  | Event.assistant _ => true
  | _ => false

/-- Recognises a terminal `result` event. -/
def isResultEvent : Event → Bool
  | Event.result _ _ => true
  | _ => false

/-- Spec-side rendering of the image list: one line `[Image N]: url` per
image, `N` counting from the given start. -/
def specImageLines : Nat → List String → List String
  | _, [] => []
  | n, url :: rest => ("[Image " ++ toString n ++ "]: " ++ url) :: specImageLines (n + 1) rest

/-- Spec-side rendering of one server's tools as `mcp__\x7bserver\x7d__\x7btool\x7d`,
in tool order. -/
def specServerTools (serverName : String) : List ToolDef → List String
  | [] => []
  | t :: ts => ("mcp__" ++ serverName ++ "__" ++ t.name) :: specServerTools serverName ts

/-- Spec-side rendering of all A2A tool names: servers in entry order, their
tools in order. -/
def specA2ANames : List (String × A2AServerConfig) → List String
  | [] => []
  | s :: rest => specServerTools s.1 s.2.tools ++ specA2ANames rest

/-- The backend behaviour of the repository's own test mock
(`test` sources): a fresh session id, one text part, a healthy endpoint. -/
def sampleBackend : Backend :=
  { createSession := Except.ok (some "test-session-123")
    promptResponse :=
      Except.ok (some { parts := some [{ type := "text", text := some "Hello from OpenCode" }] })
    health := Except.ok (some { healthy := true }) }

/-- The one prompt-response payload of `sampleBackend`. -/
def samplePromptData : PromptData :=
  { parts := some [{ type := "text", text := some "Hello from OpenCode" }] }

/-- A backend whose prompt response resolves with its `data` field absent. -/
def noDataBackend : Backend :=
  { createSession := Except.ok (some "test-session-123")
    promptResponse := Except.ok none
    health := Except.ok none }

/-- Every event produced by `translatePart` is an `assistant` event. -/
theorem translatePart_assistant (p : ResponsePart) (e : Event)
    (h : translatePart p = some e) : ∃ c, e = Event.assistant c := by
  unfold translatePart at h
  split at h
  · exact ⟨_, (Option.some.inj h).symm⟩
  · split at h
    · exact ⟨_, (Option.some.inj h).symm⟩
    · cases h

/-- Whatever the prompt call returns, `queryWithSession` records the request
built by `buildPromptRequest` as sent. -/
theorem queryWithSession_sentPrompt (sid : String) (bk : Backend) (opts : ModelQueryOptions) :
    (queryWithSession sid bk opts).sentPrompt = some (buildPromptRequest sid opts) := by
  unfold queryWithSession
  rcases bk.promptResponse with e | d
  · rfl
  · rcases d with _ | data <;> rfl

/-- Per-server tool rendering agrees with the spec-side recursion. -/
theorem specServerTools_eq_map (n : String) (ts : List ToolDef) :
    ts.map (fun t => a2aToolName n t.name) = specServerTools n ts := by
  induction ts with
  | nil => rfl
  | cons t ts ih => rw [List.map_cons, ih]; rfl

/-- The source's nested A2A loop produces exactly the spec-side name list. -/
theorem a2aToolNames_eq_spec (l : List (String × A2AServerConfig)) :
    a2aToolNames l = specA2ANames l := by
  induction l with
  | nil => rfl
  | cons s rest ih =>
    have h1 : a2aToolNames (s :: rest) =
        s.2.tools.map (fun t => a2aToolName s.1 t.name) ++ a2aToolNames rest := by
      simp [a2aToolNames]
    rw [h1, specServerTools_eq_map, ih]
    rfl

/-- Characterisation of the enabled-tool computation: the field is set iff
`a2aServers` carries at least one server entry or `allowedTools` is
non-empty, and then holds the A2A-derived names followed by the allowed
tools. -/
theorem computeEnabledTools_eq_spec (a : Option (List (String × A2AServerConfig)))
    (b : Option (List String)) :
    computeEnabledTools a b =
      if 0 < (a.getD []).length ∨ 0 < (b.getD []).length
      then some (specA2ANames (a.getD []) ++ b.getD []) else none := by
  rcases a with _ | (_ | ⟨s, ls⟩) <;> rcases b with _ | (_ | ⟨t, ts⟩) <;>
    simp [computeEnabledTools, a2aToolNames_eq_spec, specA2ANames]

/-- Request options exhibiting the C5 corner case: one A2A server entry with
an empty tool list, no allowed tools. -/
def c5Opts : ModelQueryOptions :=
  { prompt := "Hi"
    a2aServers := some [("s1", { name := "s1", version := "1.0.0", tools := [] })]
    allowedTools := none }

/-- Claim C5 counterexample: with `a2aServers = \x7bs1: \x7btools: []\x7d\x7d` and no
allowed tools, both the derived A2A tool names and the allowed tools are
empty, yet the prompt request carries `enabledTools = []` — the
tool-enabling field IS sent, contradicting the claim that no tool-enabling
field is sent at all in that case. -/
theorem enabledTools_toolless_server_cex :
    (query (some "s") sampleBackend c5Opts).sentPrompt.map PromptRequest.enabledTools =
      some (some []) ∧
    (query (some "s") sampleBackend c5Opts).sentPrompt.map PromptRequest.enabledTools ≠
      some none := by
  exact ⟨rfl, by decide⟩

/-- Claim C5 (amended): the enabled-tool list sent to the backend is the
concatenation of the names `mcp__\x7bserver\x7d__\x7btool\x7d` derived from the
`a2aServers` entries (servers then their tools, in input order) followed by
the `allowedTools` entries in input order, without deduplication; the
tool-enabling field is omitted precisely when `a2aServers` has no server
entry and `allowedTools` is empty — a server entry with an empty tool list
still causes the field to be sent (as an empty list). -/
theorem enabledTools_sent_spec (sid : String) (bk : Backend) (opts : ModelQueryOptions) :
    (query (some sid) bk opts).sentPrompt.map PromptRequest.enabledTools =
      some (if 0 < (opts.a2aServers.getD []).length ∨ 0 < (opts.allowedTools.getD []).length
        then some (specA2ANames (opts.a2aServers.getD []) ++ opts.allowedTools.getD [])
        else none) := by
  have hs : (query (some sid) bk opts).sentPrompt = some (buildPromptRequest sid opts) :=
    queryWithSession_sentPrompt sid bk opts
  rw [hs]
  show some (computeEnabledTools opts.a2aServers opts.allowedTools) = _
  rw [computeEnabledTools_eq_spec]

/-- Claim C6 counterexample: when the health call resolves but its `data`
field is absent (a malformed health payload), `validateCredentials` returns
`false`, not the `true` the claim requires for every failure including a
malformed response. -/
theorem validateCredentials_missing_data_cex :
    validateCredentials noDataBackend = false ∧ validateCredentials noDataBackend ≠ true := by
  exact ⟨rfl, by decide⟩

/-- Claim C6 (amended): `validateCredentials` returns the payload's healthy
flag when the health call resolves with data present, returns `false` when
the call resolves with the data field absent, and returns `true` when the
health call throws (server unreachable, SDK load failure). -/
theorem validateCredentials_policy_spec (c : Except String (Option String))
    (p : Except String (Option PromptData)) (e : String) (h : Health) :
    validateCredentials
        { createSession := c, promptResponse := p, health := Except.error e } = true ∧
    validateCredentials
        { createSession := c, promptResponse := p, health := Except.ok (some h) } = h.healthy ∧
    validateCredentials
        { createSession := c, promptResponse := p, health := Except.ok none } = false :=
  ⟨rfl, rfl, rfl⟩

/-- Claim C8: `healthCheck` returns `false` when the health call throws and
returns `true` exactly when the backend's health payload reports
`healthy = true`; on a thrown health call `validateCredentials` returns
`true`, the opposite failure default. -/
theorem healthCheck_policy_spec (c : Except String (Option String))
    (p : Except String (Option PromptData)) (e : String)
    (hh : Except String (Option Health)) :
    healthCheck
        { createSession := c, promptResponse := p, health := Except.error e } = false ∧
    (healthCheck { createSession := c, promptResponse := p, health := hh } = true ↔
      hh = Except.ok (some { healthy := true })) ∧
    validateCredentials
        { createSession := c, promptResponse := p, health := Except.error e } = true := by
  refine ⟨rfl, ?_, rfl⟩
  constructor
  · intro htrue
    rcases hh with e' | d
    · simp [healthCheck] at htrue
    · rcases d with _ | ⟨b⟩
      · simp [healthCheck] at htrue
      · obtain ⟨hb⟩ := b
        simp [healthCheck] at htrue
        rw [htrue]
  · intro hEq
    subst hEq
    rfl

/-- Claim C9: two query requests that differ only in the `resume` field lead
to identical outcomes — the same backend calls (session creation attempted
iff no session id is cached, the same prompt request sent) and the same event
sequence; `resume` is never read by the translator. -/
theorem query_independent_of_resume (sid0 : Option String) (bk : Backend)
    (opts : ModelQueryOptions) (r1 r2 : Option String) :
    query sid0 bk { opts with resume := r1 } = query sid0 bk { opts with resume := r2 } := by
  cases opts
  rfl

/-- The events of `queryWithSession`: the `init` event first, then the
translated parts and the terminal `result` when the response carried data,
nothing further otherwise. -/
theorem queryWithSession_events (sid : String) (bk : Backend) (opts : ModelQueryOptions) :
    (queryWithSession sid bk opts).events = Event.system "init" sid ::
      (match bk.promptResponse with
       | Except.ok (some data) =>
         (data.parts.getD []).filterMap translatePart ++ [Event.result "success" 0]
       | _ => []) := by
  unfold queryWithSession
  rcases bk.promptResponse with e | d
  · rfl
  · rcases d with _ | data <;> rfl

/-- No event in the tail of a successful translation is a `system`/`init`
event: translated parts are `assistant` events and the terminal event is a
`result`. -/
theorem tail_no_init (ps : List ResponsePart) (e : Event)
    (h : e ∈ ps.filterMap translatePart ++ [Event.result "success" 0]) :
    isInitEvent e = false := by
  rcases List.mem_append.1 h with h1 | h1
  · rcases List.mem_filterMap.1 h1 with ⟨p, _, hp⟩
    rcases translatePart_assistant p e hp with ⟨c, rfl⟩
    rfl
  · rw [List.mem_singleton.1 h1]
    rfl

/-- Claim C1 counterexample: on a client that already holds a session id, a
further `query` invocation still emits a `system`/`init` event — the yield at
`src/index.ts` line 196 is unconditional — contradicting the claim that no
`system`/`init` event is emitted when the session id is reused. -/
theorem query_reuse_emits_init_cex :
    (query (some "s0") sampleBackend { prompt := "Hi" }).events.any isInitEvent = true := by
  rfl

/-- Claim C1 (amended): in every query invocation that acquires a session —
whether it creates a new one or reuses the client's cached id — exactly one
`system`/`init` event is emitted, as the very first event and hence before
any `assistant` event; on session creation its `session_id` is the id
returned by `session.create`, and on reuse it is the cached id. -/
theorem query_init_unique_and_first (sid0 : Option String) (bk : Backend)
    (opts : ModelQueryOptions) (sid : String)
    (h : sid0 = some sid ∨ (sid0 = none ∧ bk.createSession = Except.ok (some sid))) :
    ∃ rest, (query sid0 bk opts).events = Event.system "init" sid :: rest ∧
      ∀ e ∈ rest, isInitEvent e = false := by
  have hw : ∀ s : String, ∃ rest,
      (queryWithSession s bk opts).events = Event.system "init" s :: rest ∧
      ∀ e ∈ rest, isInitEvent e = false := by
    intro s
    refine ⟨_, queryWithSession_events s bk opts, ?_⟩
    intro e he
    rcases hpr : bk.promptResponse with er | d
    · rw [hpr] at he
      simp at he
    · rcases d with _ | data
      · rw [hpr] at he
        simp at he
      · rw [hpr] at he
        exact tail_no_init _ e he
  rcases h with h | ⟨h0, hc⟩
  · rw [h]
    exact hw sid
  · rw [h0]
    unfold query
    rw [hc]
    exact hw sid

/-- Witness for the amended C1 at a concrete reuse invocation. -/
theorem query_init_unique_and_first_witness :
    ∃ rest, (query (some "s0") sampleBackend { prompt := "Hi" }).events =
      Event.system "init" "s0" :: rest ∧ ∀ e ∈ rest, isInitEvent e = false :=
  query_init_unique_and_first (some "s0") sampleBackend { prompt := "Hi" } "s0" (Or.inl rfl)

/-- On a list of parts that are all of type `text`, `tool_use` or
`tool_call`, the translation loop keeps every part, in order. -/
theorem filterMap_translate_of_known (ps : List ResponsePart)
    (h : ∀ p ∈ ps, p.type = "text" ∨ p.type = "tool_use" ∨ p.type = "tool_call") :
    ps.filterMap translatePart = ps.map (fun p =>
      if p.type = "text" then Event.assistant [ContentItem.text p.text]
      else Event.assistant [ContentItem.tool_use p.name]) := by
  induction ps with
  | nil => rfl
  | cons p ps ih =>
    have hp := h p (List.mem_cons_self p ps)
    have hrest := fun q hq => h q (List.mem_cons_of_mem p hq)
    rw [List.filterMap_cons, List.map_cons, ih hrest]
    rcases hp with h1 | h1 | h1
    · rw [translatePart, if_pos h1, if_pos h1]
    · rw [translatePart, if_neg, if_pos (Or.inl h1), if_neg]
      · rw [h1]; decide
      · rw [h1]; decide
    · rw [translatePart, if_neg, if_pos (Or.inr h1), if_neg]
      · rw [h1]; decide
      · rw [h1]; decide

/-- `queryWithSession` events when the prompt response carries data. -/
theorem queryWithSession_events_some (sid : String) (bk : Backend) (opts : ModelQueryOptions)
    (data : PromptData) (h : bk.promptResponse = Except.ok (some data)) :
    (queryWithSession sid bk opts).events = Event.system "init" sid ::
      ((data.parts.getD []).filterMap translatePart ++ [Event.result "success" 0]) := by
  unfold queryWithSession
  rw [h]

/-- `queryWithSession` events when the prompt response's data is absent. -/
theorem queryWithSession_events_noData (sid : String) (bk : Backend) (opts : ModelQueryOptions)
    (h : bk.promptResponse = Except.ok none) :
    (queryWithSession sid bk opts).events = [Event.system "init" sid] := by
  unfold queryWithSession
  rw [h]

/-- Claim C2: when the backend prompt response carries data, `query` emits —
in the backend's part order — one `assistant` event with the single content
item `text`/part text per `text` part and one `assistant` event with the
single content item `tool_use`/part name per `tool_use` or `tool_call` part,
followed by exactly one terminal `result` event with subtype `success` and a
zero cost field; when the response's data is absent, no event beyond the
`init` event is emitted and no error is raised. -/
theorem query_translates_present_response (sid : String) (bk : Backend)
    (opts : ModelQueryOptions) :
    (∀ data, bk.promptResponse = Except.ok (some data) →
      (∀ p ∈ data.parts.getD [], p.type = "text" ∨ p.type = "tool_use" ∨ p.type = "tool_call") →
      (query (some sid) bk opts).events =
        Event.system "init" sid ::
          ((data.parts.getD []).map (fun p =>
            if p.type = "text" then Event.assistant [ContentItem.text p.text]
            else Event.assistant [ContentItem.tool_use p.name]) ++
            [Event.result "success" 0]) ∧
      (query (some sid) bk opts).error = none) ∧
    (bk.promptResponse = Except.ok none →
      (query (some sid) bk opts).events = [Event.system "init" sid] ∧
      (query (some sid) bk opts).error = none) := by
  constructor
  · intro data hresp hknown
    constructor
    · rw [show (query (some sid) bk opts).events = (queryWithSession sid bk opts).events from rfl,
        queryWithSession_events_some sid bk opts data hresp,
        filterMap_translate_of_known _ hknown]
    · show (queryWithSession sid bk opts).error = none
      unfold queryWithSession
      rw [hresp]
  · intro hresp
    constructor
    · rw [show (query (some sid) bk opts).events = (queryWithSession sid bk opts).events from rfl,
        queryWithSession_events_noData sid bk opts hresp]
    · show (queryWithSession sid bk opts).error = none
      unfold queryWithSession
      rw [hresp]

/-- Witness for C2: the repository's own mock backend (one text part) and a
backend answering with an absent data field. -/
theorem query_translates_present_response_witness :
    ((query (some "s") sampleBackend { prompt := "Hi" }).events =
      Event.system "init" "s" ::
        ((samplePromptData.parts.getD []).map (fun p =>
          if p.type = "text" then Event.assistant [ContentItem.text p.text]
          else Event.assistant [ContentItem.tool_use p.name]) ++
          [Event.result "success" 0]) ∧
     (query (some "s") sampleBackend { prompt := "Hi" }).error = none) ∧
    ((query (some "s") noDataBackend { prompt := "Hi" }).events =
      [Event.system "init" "s"] ∧
     (query (some "s") noDataBackend { prompt := "Hi" }).error = none) :=
  ⟨(query_translates_present_response "s" sampleBackend { prompt := "Hi" }).1
      samplePromptData rfl (by decide),
   (query_translates_present_response "s" noDataBackend { prompt := "Hi" }).2 rfl⟩

/-- The source's 0-indexed image rendering agrees with the spec-side 1-based
line list, at every starting offset. -/
theorem enumFrom_imageLine_eq_spec (imgs : List String) : ∀ n : Nat,
    (List.enumFrom n imgs).map (fun p => imageLine p.1 p.2) = specImageLines (n + 1) imgs := by
  induction imgs with
  | nil => intro n; rfl
  | cons u us ih =>
    intro n
    rw [List.enumFrom, List.map_cons, ih (n + 1)]
    rfl

/-- Specialisation to `List.enum`, the form used by `buildPromptText`. -/
theorem enum_imageLine_eq_spec (imgs : List String) :
    imgs.enum.map (fun p => imageLine p.1 p.2) = specImageLines 1 imgs :=
  enumFrom_imageLine_eq_spec imgs 0

/-- Claim C3: when the images list is non-empty, the prompt text sent to the
backend is the marker line `[User has shared K image(s)]`, followed by one
line `[Image N]: url` per image in input order, followed by the original
prompt field; with images empty or absent the prompt text is the prompt
field unchanged. -/
theorem query_prompt_text_spec (sid : String) (bk : Backend) (opts : ModelQueryOptions) :
    (∀ imgs, opts.images = some imgs → 0 < imgs.length →
      (query (some sid) bk opts).sentPrompt.map PromptRequest.parts =
        some [{ type := "text",
                text := some ("[User has shared " ++ toString imgs.length ++ " image(s)]\n" ++
                  String.intercalate "\n" (specImageLines 1 imgs) ++ "\n\n" ++
                  opts.prompt) }]) ∧
    ((opts.images = none ∨ opts.images = some []) →
      (query (some sid) bk opts).sentPrompt.map PromptRequest.parts =
        some [{ type := "text", text := some opts.prompt }]) := by
  have hs : (query (some sid) bk opts).sentPrompt = some (buildPromptRequest sid opts) :=
    queryWithSession_sentPrompt sid bk opts
  constructor
  · intro imgs hi hlen
    have hb : buildPromptText opts.prompt (some imgs) =
        "[User has shared " ++ toString imgs.length ++ " image(s)]\n" ++
          String.intercalate "\n" (specImageLines 1 imgs) ++ "\n\n" ++ opts.prompt := by
      rw [buildPromptText, if_pos hlen, enum_imageLine_eq_spec]
    rw [hs]
    show some [({ type := "text", text := some (buildPromptText opts.prompt opts.images) } : PromptPart)] = _
    rw [hi, hb]
  · intro h0
    rw [hs]
    show some [({ type := "text", text := some (buildPromptText opts.prompt opts.images) } : PromptPart)] = _
    rcases h0 with h0 | h0 <;> rw [h0]
    all_goals rfl

/-- Witness for C3: a two-image request and an image-less request. -/
theorem query_prompt_text_spec_witness :
    (query (some "s") sampleBackend
        { prompt := "What", images := some ["u1", "u2"] }).sentPrompt.map
        PromptRequest.parts =
      some [{ type := "text",
              text := some ("[User has shared " ++ toString (["u1", "u2"] : List String).length ++
                " image(s)]\n" ++ String.intercalate "\n" (specImageLines 1 ["u1", "u2"]) ++
                "\n\n" ++ "What") }] ∧
    (query (some "s") sampleBackend { prompt := "What" }).sentPrompt.map PromptRequest.parts =
      some [{ type := "text", text := some "What" }] :=
  ⟨(query_prompt_text_spec "s" sampleBackend
      { prompt := "What", images := some ["u1", "u2"] }).1 ["u1", "u2"] rfl (by decide),
   (query_prompt_text_spec "s" sampleBackend { prompt := "What" }).2 (Or.inl rfl)⟩

/-- Peeling one character off a successful list-prefix test. -/
theorem isPrefixOf_cons_elim (a : Char) (as l : List Char)
    (h : (a :: as).isPrefixOf l = true) : ∃ t, l = a :: t ∧ as.isPrefixOf t = true := by
  cases l with
  | nil => simp [List.isPrefixOf] at h
  | cons b t =>
    simp only [List.isPrefixOf, Bool.and_eq_true, beq_iff_eq] at h
    exact ⟨t, by rw [h.1], h.2⟩

/-- A model id starting with `gemini-` starts with none of the OpenAI
markers. -/
theorem jsStartsWith_gemini_excludes (s : String)
    (h : jsStartsWith s "gemini-" = true) :
    jsStartsWith s "gpt-" = false ∧ jsStartsWith s "o1" = false ∧
      jsStartsWith s "o3" = false := by
  unfold jsStartsWith at h ⊢
  have hd : ("gemini-" : String).data = 'g' :: 'e' :: 'm' :: 'i' :: 'n' :: 'i' :: '-' :: [] := rfl
  rw [hd] at h
  obtain ⟨t1, ht1, h1⟩ := isPrefixOf_cons_elim 'g' _ s.data h
  obtain ⟨t2, ht2, _⟩ := isPrefixOf_cons_elim 'e' _ t1 h1
  rw [ht1, ht2]
  exact ⟨rfl, rfl, rfl⟩

/-- Claim C4: the provider for a model id is a total deterministic pure
function: ids with prefix `gpt-`, `o1` or `o3` resolve to `openai`, ids with
prefix `gemini-` to `google`, every other id to `anthropic`; and a request
that omits `model` is sent with the provider default `claude-3-5-sonnet`. -/
theorem resolveProviderID_total_spec (s : String) (sid : String) (bk : Backend)
    (opts : ModelQueryOptions) :
    ((jsStartsWith s "gpt-" = true ∨ jsStartsWith s "o1" = true ∨
        jsStartsWith s "o3" = true) → resolveProviderID s = "openai") ∧
    (jsStartsWith s "gemini-" = true → resolveProviderID s = "google") ∧
    ((jsStartsWith s "gpt-" = false ∧ jsStartsWith s "o1" = false ∧
        jsStartsWith s "o3" = false ∧ jsStartsWith s "gemini-" = false) →
      resolveProviderID s = "anthropic") ∧
    (resolveProviderID s = "openai" ∨ resolveProviderID s = "google" ∨
      resolveProviderID s = "anthropic") ∧
    (opts.model = none →
      (query (some sid) bk opts).sentPrompt.map PromptRequest.modelID =
        some "claude-3-5-sonnet" ∧
      (query (some sid) bk opts).sentPrompt.map PromptRequest.providerID =
        some "anthropic") := by
  refine ⟨?_, ?_, ?_, ?_, ?_⟩
  · intro h
    unfold resolveProviderID
    rcases h with h | h | h <;> rw [h] <;> simp
  · intro h
    obtain ⟨h1, h2, h3⟩ := jsStartsWith_gemini_excludes s h
    unfold resolveProviderID
    rw [h1, h2, h3, h]
    rfl
  · intro ⟨h1, h2, h3, h4⟩
    unfold resolveProviderID
    rw [h1, h2, h3, h4]
    rfl
  · unfold resolveProviderID
    rcases hb : (jsStartsWith s "gpt-" || jsStartsWith s "o1" || jsStartsWith s "o3") with _ | _
    · rcases hg : jsStartsWith s "gemini-" with _ | _ <;> simp
    · simp
  · intro hm
    have hs : (query (some sid) bk opts).sentPrompt = some (buildPromptRequest sid opts) :=
      queryWithSession_sentPrompt sid bk opts
    rw [hs]
    constructor
    · show some ((opts.model.getD defaultModel)) = _
      rw [hm]
      rfl
    · show some (resolveProviderID (opts.model.getD defaultModel)) = _
      rw [hm]
      rfl

/-- Witness for C4 at the spec's own examples: `gpt-4o`, `gemini-pro`,
`claude-3-5-haiku`, and a request without a `model` field. -/
theorem resolveProviderID_total_spec_witness :
    resolveProviderID "gpt-4o" = "openai" ∧ resolveProviderID "gemini-pro" = "google" ∧
    resolveProviderID "claude-3-5-haiku" = "anthropic" ∧
    (query (some "s") sampleBackend { prompt := "Hi" }).sentPrompt.map PromptRequest.modelID =
      some "claude-3-5-sonnet" :=
  ⟨(resolveProviderID_total_spec "gpt-4o" "s" sampleBackend { prompt := "Hi" }).1 (Or.inl rfl),
   (resolveProviderID_total_spec "gemini-pro" "s" sampleBackend { prompt := "Hi" }).2.1 rfl,
   (resolveProviderID_total_spec "claude-3-5-haiku" "s" sampleBackend
      { prompt := "Hi" }).2.2.1 ⟨rfl, rfl, rfl, rfl⟩,
   ((resolveProviderID_total_spec "x" "s" sampleBackend { prompt := "Hi" }).2.2.2.2 rfl).1⟩

/-- When the prompt call throws, the invocation ends with the wrapped error
and only the `init` event was yielded. -/
theorem queryWithSession_promptError (sid : String) (bk : Backend) (opts : ModelQueryOptions)
    (e : String) (h : bk.promptResponse = Except.error e) :
    (queryWithSession sid bk opts).error = some (wrapError e) ∧
    (queryWithSession sid bk opts).events = [Event.system "init" sid] := by
  unfold queryWithSession
  rw [h]
  exact ⟨rfl, rfl⟩

/-- Claim C7: a session-create payload with no id fails the query with the
session-creation error; every exception thrown during session creation or
prompt submission is re-raised as a single wrapped descriptive error; the
generator terminates abnormally without emitting a `result` event, and the
events already yielded before the failure (the `init` event, when the
failure happened at prompt time) remain. -/
theorem query_error_propagation (bk : Backend) (opts : ModelQueryOptions) :
    (bk.createSession = Except.ok none →
      (query none bk opts).error = some (wrapError sessionCreationErrorMsg) ∧
      (query none bk opts).events = []) ∧
    (∀ e, bk.createSession = Except.error e →
      (query none bk opts).error = some (wrapError e) ∧ (query none bk opts).events = []) ∧
    (∀ sid e, bk.createSession = Except.ok (some sid) → bk.promptResponse = Except.error e →
      (query none bk opts).error = some (wrapError e) ∧
      (query none bk opts).events = [Event.system "init" sid] ∧
      ∀ ev ∈ (query none bk opts).events, isResultEvent ev = false) ∧
    (∀ sid e, bk.promptResponse = Except.error e →
      (query (some sid) bk opts).error = some (wrapError e) ∧
      (query (some sid) bk opts).events = [Event.system "init" sid] ∧
      ∀ ev ∈ (query (some sid) bk opts).events, isResultEvent ev = false) := by
  refine ⟨?_, ?_, ?_, ?_⟩
  · intro h
    unfold query
    rw [h]
    exact ⟨rfl, rfl⟩
  · intro e h
    unfold query
    rw [h]
    exact ⟨rfl, rfl⟩
  · intro sid e hc hp
    unfold query
    rw [hc]
    obtain ⟨h1, h2⟩ := queryWithSession_promptError sid bk opts e hp
    refine ⟨h1, h2, ?_⟩
    intro ev hev
    rw [h2, List.mem_singleton] at hev
    rw [hev]
    rfl
  · intro sid e hp
    obtain ⟨h1, h2⟩ := queryWithSession_promptError sid bk opts e hp
    refine ⟨h1, h2, ?_⟩
    intro ev hev
    rw [show (query (some sid) bk opts).events = (queryWithSession sid bk opts).events from rfl,
      h2, List.mem_singleton] at hev
    rw [hev]
    rfl

/-- A backend whose session-create call resolves without an id. -/
def noIdBackend : Backend :=
  { createSession := Except.ok none
    promptResponse := Except.ok none
    health := Except.ok none }

/-- A backend whose session-create call throws. -/
def createThrowBackend : Backend :=
  { createSession := Except.error "ECONNREFUSED"
    promptResponse := Except.ok none
    health := Except.error "ECONNREFUSED" }

/-- A backend that creates a session but throws on the prompt call. -/
def promptThrowBackend : Backend :=
  { createSession := Except.ok (some "sess-1")
    promptResponse := Except.error "boom"
    health := Except.ok (some { healthy := true }) }

/-- Witness for C7 at three concrete failing backends. -/
theorem query_error_propagation_witness :
    ((query none noIdBackend { prompt := "Hi" }).error =
        some (wrapError sessionCreationErrorMsg) ∧
      (query none noIdBackend { prompt := "Hi" }).events = []) ∧
    ((query none createThrowBackend { prompt := "Hi" }).error =
        some (wrapError "ECONNREFUSED") ∧
      (query none createThrowBackend { prompt := "Hi" }).events = []) ∧
    (query none promptThrowBackend { prompt := "Hi" }).error = some (wrapError "boom") ∧
    (query (some "s0") promptThrowBackend { prompt := "Hi" }).events =
      [Event.system "init" "s0"] :=
  ⟨(query_error_propagation noIdBackend { prompt := "Hi" }).1 rfl,
   (query_error_propagation createThrowBackend { prompt := "Hi" }).2.1 "ECONNREFUSED" rfl,
   ((query_error_propagation promptThrowBackend { prompt := "Hi" }).2.2.1
      "sess-1" "boom" rfl rfl).1,
   ((query_error_propagation promptThrowBackend { prompt := "Hi" }).2.2.2
      "s0" "boom" rfl).2.1⟩

/-- A prompt response mixing known and unknown part types. -/
def mixedPromptData : PromptData :=
  { parts := some [{ type := "text", text := some "A" }, { type := "step-start" },
      { type := "tool_use", name := some "t1" }] }

/-- A backend answering with `mixedPromptData`. -/
def mixedBackend : Backend :=
  { createSession := Except.ok (some "sess-2")
    promptResponse := Except.ok (some mixedPromptData)
    health := Except.ok (some { healthy := true }) }

/-- Claim C10: a backend part whose type is neither `text` nor `tool_use`
nor `tool_call` contributes no event — it is skipped without error — and the
terminal `result` event with subtype `success` is still emitted last. -/
theorem query_skips_unknown_part_types (sid : String) (bk : Backend)
    (opts : ModelQueryOptions) (data : PromptData) (p : ResponsePart)
    (hresp : bk.promptResponse = Except.ok (some data))
    (_hmem : p ∈ data.parts.getD [])
    (htype : p.type ≠ "text" ∧ p.type ≠ "tool_use" ∧ p.type ≠ "tool_call") :
    translatePart p = none ∧
    (query (some sid) bk opts).events =
      Event.system "init" sid ::
        ((data.parts.getD []).filterMap translatePart ++ [Event.result "success" 0]) ∧
    (query (some sid) bk opts).events.getLast? = some (Event.result "success" 0) ∧
    (query (some sid) bk opts).error = none := by
  have htp : translatePart p = none := by
    unfold translatePart
    rw [if_neg htype.1, if_neg (fun h => h.elim htype.2.1 htype.2.2)]
  have hev := queryWithSession_events_some sid bk opts data hresp
  refine ⟨htp, hev, ?_, ?_⟩
  · rw [show (query (some sid) bk opts).events = (queryWithSession sid bk opts).events from rfl,
      hev, ← List.cons_append, List.getLast?_concat]
  · show (queryWithSession sid bk opts).error = none
    unfold queryWithSession
    rw [hresp]

/-- Witness for C10 at a concrete mixed-part response: the `step-start` part
is skipped, the text and tool parts survive, the `result` event is last. -/
theorem query_skips_unknown_part_types_witness :
    translatePart { type := "step-start" } = none ∧
    (query (some "s") mixedBackend { prompt := "Hi" }).events =
      Event.system "init" "s" ::
        ((mixedPromptData.parts.getD []).filterMap translatePart ++
          [Event.result "success" 0]) ∧
    (query (some "s") mixedBackend { prompt := "Hi" }).events.getLast? =
      some (Event.result "success" 0) ∧
    (query (some "s") mixedBackend { prompt := "Hi" }).error = none :=
  query_skips_unknown_part_types "s" mixedBackend { prompt := "Hi" } mixedPromptData
    { type := "step-start" } rfl (by decide) (by decide)
